import Mathlib

/-!
Shallow embedding of the opencast-docker audio/video sync pipeline.

Two near-duplicate Python scripts are embedded:
- `files/assign_flavor.py` (minimal variant): probes the audio durations of
  the two inputs, decides the sync status, and writes a key=value properties
  record to the output file.
- `opencast-docker/files/sync_video.py` (full variant): probes, decides, and
  when a fix is needed synthesizes a black leader clip, re-encodes the
  defective input and concatenates, then writes argv to /tmp/video_params.log
  and verifies the output file size.

Durations probed by ffprobe are modelled as exact rationals.  External
processes (ffmpeg invocations) are modelled by success flags in a `World`
record, and the scripts' observable filesystem actions are collected into an
event trace.  `sys.exit(code)` inside a helper is modelled as `some code`
propagating to the caller; normal return is `none`.
-/

/-- One observable action of a script: an external process invocation
(carrying its salient arguments and whether it succeeded), a Python-level
file write (`open(path, "w")` followed by the written text), a file removal
(`os.remove`), or the output existence/size check of sync_video.py line 187. -/
inductive Event where
  | runExtractAudio : String → ℚ → Bool → Event
  | runBlankMux : String → ℚ → String → Bool → Event
  | runReencode : String → String → Bool → Event
  | runConcat : String → String → Bool → Event
  | write : String → String → Event
  | remove : String → Event
  | check : String → Event
  deriving DecidableEq, Repr

/-- The external environment of one run of sync_video.py: whether each of the
four ffmpeg invocations exits with status 0, the results of the
`os.path.exists` probes the script performs, and the size reported by
`os.path.getsize` for the declared output at verification time. -/
structure World where
  extractOk : Bool
  muxOk : Bool
  reencodeOk : Bool
  concatOk : Bool
  tempAudioExists : Bool
  concatListExists : Bool
  blankExists : Bool
  desyncedFixedExists : Bool
  outputExists : Bool
  outputSize : ℕ
  deriving DecidableEq, Repr

/-- Round a rational to the nearest integer, ties to even — the rounding
Python's fixed-point formatting applies to the scaled value. -/
def roundHalfEven (q : ℚ) : ℤ :=
  if q - ⌊q⌋ < 1/2 then ⌊q⌋
  else if q - ⌊q⌋ > 1/2 then ⌊q⌋ + 1
  else if ⌊q⌋ % 2 = 0 then ⌊q⌋ else ⌊q⌋ + 1

/-- Render a natural number below 100 as exactly two digits. -/
def twoDigits (n : ℕ) : String :=
  (if n < 10 then "0" else "") ++ toString n

/-- Python's `f"{x:.2f}"` on an exact rational value: fixed-point with two
fractional digits. -/
def formatTwoDec (q : ℚ) : String :=
  let n := roundHalfEven (q * 100)
  (if n < 0 then "-" else "") ++ toString (n.natAbs / 100) ++ "." ++ twoDigits (n.natAbs % 100)

/-- `determine_sync_status` from assign_flavor.py lines 29-40, with the two
probed audio durations passed in.  Returns (status, fixed_type, offset). -/
def determine_sync_status (a1 a2 : ℚ) : String × String × ℚ :=
  let offset := |a1 - a2|
  let status := if offset < 1/10 then "no-fix-needed" else "fix-needed"
  let fixed_type :=
    if offset < 1/10 then "none"
    else if a1 < a2 then "presenter" else "presentation"
  (status, fixed_type, offset)

/-- `write_properties` from assign_flavor.py lines 42-51: opens `outputfile`
for writing and writes the three key=value lines. -/
def write_properties (status fixed_type : String) (offset : ℚ) (outputfile : String) : Event :=
  Event.write outputfile
    ("sync_status=" ++ status ++ "\n" ++
     "sync_video=" ++ fixed_type ++ "\n" ++
     "offset.seconds=" ++ formatTwoDec offset ++ "\n")

/-- The main execution of assign_flavor.py (bottom of the script): determine
the sync status from the two probed durations and write the properties file;
the script then exits 0. -/
def assign_flavor_main (a1 a2 : ℚ) (outputfile : String) : List Event × ℕ :=
  let d := determine_sync_status a1 a2
  ([write_properties d.1 d.2.1 d.2.2 outputfile], 0)

/-- `create_offset_video` from sync_video.py lines 75-103.  Runs the audio
extraction ffmpeg, then the blank-video mux ffmpeg; a failing invocation
raises CalledProcessError, which the except clause turns into `sys.exit(1)`.
Only after both succeed does the guarded `os.remove("temp_offset_audio.aac")`
on lines 98-99 execute. -/
def create_offset_video (w : World) (ref_video : String) (offset_duration : ℚ)
    (resolution : String) (output : String) : List Event × Option ℕ :=
  let e1 := Event.runExtractAudio ref_video offset_duration w.extractOk
  if w.extractOk = false then ([e1], some 1)
  else
    let e2 := Event.runBlankMux resolution offset_duration output w.muxOk
    if w.muxOk = false then ([e1, e2], some 1)
    else
      ([e1, e2] ++ if w.tempAudioExists then [Event.remove "temp_offset_audio.aac"] else [],
       none)

/-- `reencode_video` from sync_video.py lines 105-118. -/
def reencode_video (w : World) (video_path output_path : String) : List Event × Option ℕ :=
  let e := Event.runReencode video_path output_path w.reencodeOk
  if w.reencodeOk = false then ([e], some 1) else ([e], none)

/-- `concat_videos` from sync_video.py lines 120-138: writes the manifest
`concat_list.txt` listing the two absolute paths, runs the ffmpeg concat
demuxer, and removes the manifest (guarded by an existence check) only when
the invocation succeeded; on failure the except clause exits 1. -/
def concat_videos (w : World) (abspath : String → String) (video1 video2 output : String) :
    List Event × Option ℕ :=
  let manifest :=
    "file \x27" ++ abspath video1 ++ "\x27\n" ++ "file \x27" ++ abspath video2 ++ "\x27\n"
  let ew := Event.write "concat_list.txt" manifest
  let er := Event.runConcat "concat_list.txt" output w.concatOk
  if w.concatOk = false then ([ew, er], some 1)
  else
    ([ew, er] ++ if w.concatListExists then [Event.remove "concat_list.txt"] else [], none)

/-- The sync decision of sync_video.py lines 148-171: the values held by the
local variables `status`, `fixed_type`, `offset` after that block.  `status`
starts as "no-fix-needed", `offset` as 0 and `fixed_type` as "none"; they are
reassigned only in the `abs(a1 - a2) >= 0.1` branch, where the defective file
is identified by comparing absolute paths against the two role paths. -/
def syncDecision (abspath : String → String) (a1 a2 : ℚ)
    (video_a video_b presenter presentation : String) : String × String × ℚ :=
  if |a1 - a2| < 1/10 then ("no-fix-needed", "none", 0)
  else
    let desynced := if a1 > a2 then video_b else video_a
    let offset := if a1 > a2 then a1 - a2 else a2 - a1
    let fixed_type :=
      if abspath desynced = abspath presenter then "presenter"
      else if abspath desynced = abspath presentation then "presentation"
      else "unknown"
    ("fix-needed", fixed_type, offset)

/-- The fix branch of `auto_fix_offset` (sync_video.py lines 152-182) plus
the no-fix branch: the events up to line 182 and the propagated exit, before
the argv log write and the output check.  In the fix branch the reference is
the longer file, the desynced one the shorter, and the offset their
difference (the local variables ref, desynced and offset of lines 157-164,
written inline here); leader synthesis, re-encoding and concatenation run in
order,
each fatal on failure, then the two intermediates are removed (each guarded
by an existence check). -/
def fixPhase (w : World) (abspath : String → String) (a1 a2 : ℚ)
    (video_a video_b output : String) : List Event × Option ℕ :=
  if |a1 - a2| < 1/10 then ([], none)
  else
    match create_offset_video w (if a1 > a2 then video_a else video_b)
        (if a1 > a2 then a1 - a2 else a2 - a1) "1280x720" "blank_with_audio.mp4" with
    | (es, some c) => (es, some c)
    | (es, none) =>
      match reencode_video w (if a1 > a2 then video_b else video_a) "desynced_fixed.mp4" with
      | (es2, some c) => (es ++ es2, some c)
      | (es2, none) =>
        match concat_videos w abspath "blank_with_audio.mp4" "desynced_fixed.mp4" output with
        | (es3, some c) => (es ++ es2 ++ es3, some c)
        | (es3, none) =>
          (es ++ es2 ++ es3
            ++ (if w.blankExists then [Event.remove "blank_with_audio.mp4"] else [])
            ++ (if w.desyncedFixedExists then [Event.remove "desynced_fixed.mp4"] else []),
           none)

/-- `auto_fix_offset` from sync_video.py lines 140-189, with the two probed
audio durations passed in.  The status/fixed_type/offset variables of lines
148-171 are modelled by `syncDecision` (they feed only the log output); the
filesystem behaviour is `fixPhase` followed, on every path that reaches line
184, by the argv write to /tmp/video_params.log and the verification that
the declared output exists with size at least 10000 bytes (exit 1
otherwise). -/
def auto_fix_offset (w : World) (abspath : String → String) (a1 a2 : ℚ)
    (video_a video_b output presenter presentation : String) (argv : List String) :
    List Event × Option ℕ :=
  match fixPhase w abspath a1 a2 video_a video_b output with
  | (es, some c) => (es, some c)
  | (es, none) =>
    let es2 := es ++
      [Event.write "/tmp/video_params.log" (String.intercalate " " argv),
       Event.check output]
    if w.outputExists = false ∨ w.outputSize < 10000 then (es2, some 1) else (es2, none)

/-- The top-level invocation of sync_video.py lines 192-200: `auto_fix_offset`
is called with the presenter role path equal to the first input and the
presentation role path equal to the second input; `sys.exit` inside a helper
terminates the process with that code, otherwise the script ends with exit
code 0. -/
def sync_video_main (w : World) (abspath : String → String) (a1 a2 : ℚ)
    (presenter_input presentation_input outputfile : String) : List Event × ℕ :=
  match auto_fix_offset w abspath a1 a2 presenter_input presentation_input outputfile
      presenter_input presentation_input
      ["sync_video.py", presenter_input, presentation_input, outputfile] with
  | (es, some c) => (es, c)
  | (es, none) => (es, 0)

/-- `true` when `pat` occurs as a substring of `s`. -/
def strContains (s pat : String) : Bool :=
  decide (pat.toList <:+: s.toList)


/-- Unfolding equation: `determine_sync_status` below the threshold. -/
lemma determine_sync_status_nofix (a1 a2 : ℚ) (h : |a1 - a2| < 1/10) :
    determine_sync_status a1 a2 = ("no-fix-needed", "none", |a1 - a2|) := by
  simp only [determine_sync_status]
  rw [if_pos h, if_pos h]

/-- Unfolding equation: `determine_sync_status` at or above the threshold. -/
lemma determine_sync_status_fix (a1 a2 : ℚ) (h : ¬ |a1 - a2| < 1/10) :
    determine_sync_status a1 a2 =
      ("fix-needed", if a1 < a2 then "presenter" else "presentation", |a1 - a2|) := by
  simp only [determine_sync_status]
  rw [if_neg h, if_neg h]

/-- Unfolding equation: `syncDecision` below the threshold. -/
lemma syncDecision_nofix (abspath : String → String) (a1 a2 : ℚ) (va vb p q : String)
    (h : |a1 - a2| < 1/10) :
    syncDecision abspath a1 a2 va vb p q = ("no-fix-needed", "none", 0) := by
  simp only [syncDecision]
  rw [if_pos h]

/-- Unfolding equation: `syncDecision` at or above the threshold. -/
lemma syncDecision_fix (abspath : String → String) (a1 a2 : ℚ) (va vb p q : String)
    (h : ¬ |a1 - a2| < 1/10) :
    syncDecision abspath a1 a2 va vb p q =
      ("fix-needed",
       if abspath (if a1 > a2 then vb else va) = abspath p then "presenter"
       else if abspath (if a1 > a2 then vb else va) = abspath q then "presentation"
       else "unknown",
       if a1 > a2 then a1 - a2 else a2 - a1) := by
  simp only [syncDecision]
  rw [if_neg h]

/-- C1: for all durations the decision is no-fix-needed exactly when the
absolute difference is strictly below 0.1 seconds, in both variants; at an
offset of exactly 0.1 (10.0 vs 10.1) the status is fix-needed, while just
under the threshold (10.0 vs 10.099999) it is no-fix-needed with
fixed_type = none. -/
theorem sync_threshold_strict (a1 a2 : ℚ) :
    (((determine_sync_status a1 a2).1 = "no-fix-needed" ↔ |a1 - a2| < 1/10) ∧
     ((determine_sync_status a1 a2).1 = "fix-needed" ↔ ¬ |a1 - a2| < 1/10) ∧
     ∀ abspath va vb p q,
       ((syncDecision abspath a1 a2 va vb p q).1 = "no-fix-needed" ↔ |a1 - a2| < 1/10)) ∧
    (determine_sync_status 10 (101/10)).1 = "fix-needed" ∧
    (determine_sync_status 10 (10099999/1000000)).1 = "no-fix-needed" ∧
    (determine_sync_status 10 (10099999/1000000)).2.1 = "none" := by
  have hb1 : ¬ |(10:ℚ) - 101/10| < 1/10 := by
    have he : (10:ℚ) - 101/10 = -(1/10) := by norm_num
    rw [he, abs_neg, abs_of_nonneg (by norm_num : (0:ℚ) ≤ 1/10)]
    exact lt_irrefl _
  have hb2 : |(10:ℚ) - 10099999/1000000| < 1/10 := by
    have he : (10:ℚ) - 10099999/1000000 = -(99999/1000000) := by norm_num
    rw [he, abs_neg, abs_of_nonneg (by norm_num : (0:ℚ) ≤ 99999/1000000)]
    norm_num
  refine ⟨⟨?_, ?_, fun abspath va vb p q => ?_⟩, ?_, ?_, ?_⟩
  · by_cases h : |a1 - a2| < 1/10
    · rw [determine_sync_status_nofix a1 a2 h]
      exact iff_of_true rfl h
    · rw [determine_sync_status_fix a1 a2 h]
      show "fix-needed" = "no-fix-needed" ↔ _
      exact iff_of_false (by decide) h
  · by_cases h : |a1 - a2| < 1/10
    · rw [determine_sync_status_nofix a1 a2 h]
      show "no-fix-needed" = "fix-needed" ↔ _
      exact iff_of_false (by decide) (not_not_intro h)
    · rw [determine_sync_status_fix a1 a2 h]
      exact iff_of_true rfl h
  · by_cases h : |a1 - a2| < 1/10
    · rw [syncDecision_nofix abspath a1 a2 va vb p q h]
      exact iff_of_true rfl h
    · rw [syncDecision_fix abspath a1 a2 va vb p q h]
      show "fix-needed" = "no-fix-needed" ↔ _
      exact iff_of_false (by decide) h
  · rw [determine_sync_status_fix 10 (101/10) hb1]
  · rw [determine_sync_status_nofix 10 (10099999/1000000) hb2]
  · rw [determine_sync_status_nofix 10 (10099999/1000000) hb2]

/-- C2: whenever the absolute difference of the two durations is at least
0.1 seconds, the reported defective role is the role bound to the strictly
smaller duration, in the minimal variant and, under distinct role paths, in
the full variant as invoked. -/
theorem defective_role_is_smaller (a1 a2 : ℚ) (h : 1/10 ≤ |a1 - a2|) :
    ((a1 < a2 → (determine_sync_status a1 a2).2.1 = "presenter") ∧
     (a2 < a1 → (determine_sync_status a1 a2).2.1 = "presentation")) ∧
    ∀ abspath va vb, abspath va ≠ abspath vb →
      ((a1 < a2 → (syncDecision abspath a1 a2 va vb va vb).2.1 = "presenter") ∧
       (a2 < a1 → (syncDecision abspath a1 a2 va vb va vb).2.1 = "presentation")) := by
  have hn : ¬ |a1 - a2| < 1/10 := not_lt.mpr h
  refine ⟨⟨fun hlt => ?_, fun hlt => ?_⟩, fun abspath va vb hne => ⟨fun hlt => ?_, fun hlt => ?_⟩⟩
  · rw [determine_sync_status_fix a1 a2 hn]
    show (if a1 < a2 then "presenter" else "presentation") = _
    rw [if_pos hlt]
  · rw [determine_sync_status_fix a1 a2 hn]
    show (if a1 < a2 then "presenter" else "presentation") = _
    rw [if_neg (asymm hlt)]
  · rw [syncDecision_fix abspath a1 a2 va vb va vb hn,
        show (if a1 > a2 then vb else va) = va from if_neg (asymm hlt)]
    show (if abspath va = abspath va then "presenter" else _) = _
    rw [if_pos rfl]
  · rw [syncDecision_fix abspath a1 a2 va vb va vb hn,
        show (if a1 > a2 then vb else va) = vb from if_pos hlt]
    show (if abspath vb = abspath va then "presenter"
          else if abspath vb = abspath vb then "presentation" else "unknown") = _
    rw [if_neg (fun e => hne e.symm), if_pos rfl]

/-- Witness for C2 at the spec example: presenter 118.0 s, presentation
120.0 s yields fixed_type = presenter in both variants. -/
theorem defective_role_is_smaller_witness :
    (1:ℚ)/10 ≤ |118 - 120| ∧
    (determine_sync_status 118 120).2.1 = "presenter" ∧
    (syncDecision id 118 120 "presenter.mp4" "presentation.mp4"
      "presenter.mp4" "presentation.mp4").2.1 = "presenter" := by
  have h := defective_role_is_smaller 118 120 (by norm_num)
  exact ⟨by norm_num, h.1.1 (by norm_num),
    (h.2 id "presenter.mp4" "presentation.mp4" (by decide)).1 (by norm_num)⟩

/-- C8: with the role paths bound exactly to the two inputs being compared
(as at the call site of sync_video.py), the fixed_type "unknown" branch is
unreachable: the result is never "unknown", and under fix-needed conditions
it is presenter or presentation. -/
theorem unknown_branch_unreachable (abspath : String → String) (a1 a2 : ℚ) (p q : String) :
    (syncDecision abspath a1 a2 p q p q).2.1 ≠ "unknown" ∧
    (1/10 ≤ |a1 - a2| →
      (syncDecision abspath a1 a2 p q p q).2.1 = "presenter" ∨
      (syncDecision abspath a1 a2 p q p q).2.1 = "presentation") := by
  by_cases hlt : |a1 - a2| < 1/10
  · rw [syncDecision_nofix abspath a1 a2 p q p q hlt]
    exact ⟨by decide, fun hge => absurd hlt (not_lt.mpr hge)⟩
  · rw [syncDecision_fix abspath a1 a2 p q p q hlt]
    by_cases hgt : a1 > a2
    · rw [show (if a1 > a2 then q else p) = q from if_pos hgt]
      by_cases habs : abspath q = abspath p
      · rw [if_pos habs]
        refine ⟨fun hc => ?_, fun _ => Or.inl rfl⟩
        simp at hc
      · rw [if_neg habs, if_pos rfl]
        refine ⟨fun hc => ?_, fun _ => Or.inr rfl⟩
        simp at hc
    · rw [show (if a1 > a2 then q else p) = p from if_neg hgt, if_pos rfl]
      refine ⟨fun hc => ?_, fun _ => Or.inl rfl⟩
      simp at hc

/-- Witness for C8 at a concrete fix-needed input. -/
theorem unknown_branch_unreachable_witness :
    (syncDecision id 118 120 "p.mp4" "q.mp4" "p.mp4" "q.mp4").2.1 ≠ "unknown" ∧
    ((syncDecision id 118 120 "p.mp4" "q.mp4" "p.mp4" "q.mp4").2.1 = "presenter" ∨
     (syncDecision id 118 120 "p.mp4" "q.mp4" "p.mp4" "q.mp4").2.1 = "presentation") := by
  have h := unknown_branch_unreachable id 118 120 "p.mp4" "q.mp4"
  exact ⟨h.1, h.2 (by norm_num)⟩

/-- C9: the computed offset is symmetric in the two durations, in both
variants. -/
theorem offset_symmetric (a1 a2 : ℚ) :
    (determine_sync_status a1 a2).2.2 = (determine_sync_status a2 a1).2.2 ∧
    ∀ abspath va vb p q,
      (syncDecision abspath a1 a2 va vb p q).2.2 =
        (syncDecision abspath a2 a1 va vb p q).2.2 := by
  constructor
  · show |a1 - a2| = |a2 - a1|
    exact abs_sub_comm a1 a2
  · intro abspath va vb p q
    by_cases h : |a1 - a2| < 1/10
    · have h' : |a2 - a1| < 1/10 := by rwa [abs_sub_comm]
      rw [syncDecision_nofix abspath a1 a2 va vb p q h,
          syncDecision_nofix abspath a2 a1 va vb p q h']
    · have h' : ¬ |a2 - a1| < 1/10 := by rwa [abs_sub_comm]
      rw [syncDecision_fix abspath a1 a2 va vb p q h,
          syncDecision_fix abspath a2 a1 va vb p q h']
      show (if a1 > a2 then a1 - a2 else a2 - a1) = (if a2 > a1 then a2 - a1 else a1 - a2)
      rcases lt_trichotomy a1 a2 with hlt | heq | hgt
      · rw [if_neg (asymm hlt), if_pos hlt]
      · rw [heq]
      · rw [if_pos hgt, if_neg (asymm hgt)]

/-- Unfolding equation: leader synthesis when the audio extraction fails. -/
lemma create_offset_video_extract_fail (w : World) (r : String) (d : ℚ) (res o : String)
    (hE : w.extractOk = false) :
    create_offset_video w r d res o = ([Event.runExtractAudio r d false], some 1) := by
  simp [create_offset_video, hE]

/-- Unfolding equation: leader synthesis when the muxing step fails. -/
lemma create_offset_video_mux_fail (w : World) (r : String) (d : ℚ) (res o : String)
    (hE : w.extractOk = true) (hM : w.muxOk = false) :
    create_offset_video w r d res o =
      ([Event.runExtractAudio r d true, Event.runBlankMux res d o false], some 1) := by
  simp [create_offset_video, hE, hM]

/-- Unfolding equation: leader synthesis when both invocations succeed. -/
lemma create_offset_video_ok (w : World) (r : String) (d : ℚ) (res o : String)
    (hE : w.extractOk = true) (hM : w.muxOk = true) :
    create_offset_video w r d res o =
      ([Event.runExtractAudio r d true, Event.runBlankMux res d o true] ++
        (if w.tempAudioExists then [Event.remove "temp_offset_audio.aac"] else []), none) := by
  simp [create_offset_video, hE, hM]

/-- Unfolding equation: re-encoding failure. -/
lemma reencode_video_fail (w : World) (x y : String) (hR : w.reencodeOk = false) :
    reencode_video w x y = ([Event.runReencode x y false], some 1) := by
  simp [reencode_video, hR]

/-- Unfolding equation: re-encoding success. -/
lemma reencode_video_ok (w : World) (x y : String) (hR : w.reencodeOk = true) :
    reencode_video w x y = ([Event.runReencode x y true], none) := by
  simp [reencode_video, hR]

/-- Unfolding equation: concatenation failure. -/
lemma concat_videos_fail (w : World) (ap : String → String) (v1 v2 o : String)
    (hC : w.concatOk = false) :
    concat_videos w ap v1 v2 o =
      ([Event.write "concat_list.txt"
          ("file \x27" ++ ap v1 ++ "\x27\n" ++ "file \x27" ++ ap v2 ++ "\x27\n"),
        Event.runConcat "concat_list.txt" o false], some 1) := by
  simp [concat_videos, hC]

/-- Unfolding equation: concatenation success. -/
lemma concat_videos_ok (w : World) (ap : String → String) (v1 v2 o : String)
    (hC : w.concatOk = true) :
    concat_videos w ap v1 v2 o =
      ([Event.write "concat_list.txt"
          ("file \x27" ++ ap v1 ++ "\x27\n" ++ "file \x27" ++ ap v2 ++ "\x27\n"),
        Event.runConcat "concat_list.txt" o true] ++
        (if w.concatListExists then [Event.remove "concat_list.txt"] else []), none) := by
  simp [concat_videos, hC]

/-- Shape of `fixPhase` on the no-fix path: nothing happens. -/
lemma fixPhase_nofix (w : World) (ap : String → String) (a1 a2 : ℚ)
    (va vb out : String) (hth : |a1 - a2| < 1/10) :
    fixPhase w ap a1 a2 va vb out = ([], none) := by
  unfold fixPhase
  rw [if_pos hth]

/-- Shape of `fixPhase` when a fix is needed and audio extraction fails. -/
lemma fixPhase_extract_fail (w : World) (ap : String → String) (a1 a2 : ℚ)
    (va vb out : String) (hn : ¬ |a1 - a2| < 1/10) (hE : w.extractOk = false) :
    fixPhase w ap a1 a2 va vb out =
      ([Event.runExtractAudio (if a1 > a2 then va else vb)
          (if a1 > a2 then a1 - a2 else a2 - a1) false], some 1) := by
  unfold fixPhase
  rw [if_neg hn, create_offset_video_extract_fail _ _ _ _ _ hE]

/-- Shape of `fixPhase` when a fix is needed and the muxing step fails. -/
lemma fixPhase_mux_fail (w : World) (ap : String → String) (a1 a2 : ℚ)
    (va vb out : String) (hn : ¬ |a1 - a2| < 1/10)
    (hE : w.extractOk = true) (hM : w.muxOk = false) :
    fixPhase w ap a1 a2 va vb out =
      ([Event.runExtractAudio (if a1 > a2 then va else vb)
          (if a1 > a2 then a1 - a2 else a2 - a1) true,
        Event.runBlankMux "1280x720" (if a1 > a2 then a1 - a2 else a2 - a1)
          "blank_with_audio.mp4" false], some 1) := by
  unfold fixPhase
  rw [if_neg hn, create_offset_video_mux_fail _ _ _ _ _ hE hM]

/-- Shape of `fixPhase` when a fix is needed and re-encoding fails. -/
lemma fixPhase_reencode_fail (w : World) (ap : String → String) (a1 a2 : ℚ)
    (va vb out : String) (hn : ¬ |a1 - a2| < 1/10)
    (hE : w.extractOk = true) (hM : w.muxOk = true) (hR : w.reencodeOk = false) :
    fixPhase w ap a1 a2 va vb out =
      (([Event.runExtractAudio (if a1 > a2 then va else vb)
           (if a1 > a2 then a1 - a2 else a2 - a1) true,
         Event.runBlankMux "1280x720" (if a1 > a2 then a1 - a2 else a2 - a1)
           "blank_with_audio.mp4" true] ++
        (if w.tempAudioExists then [Event.remove "temp_offset_audio.aac"] else [])) ++
       [Event.runReencode (if a1 > a2 then vb else va) "desynced_fixed.mp4" false],
       some 1) := by
  unfold fixPhase
  rw [if_neg hn, create_offset_video_ok _ _ _ _ _ hE hM]
  rw [reencode_video_fail _ _ _ hR]

/-- Shape of `fixPhase` when a fix is needed and concatenation fails. -/
lemma fixPhase_concat_fail (w : World) (ap : String → String) (a1 a2 : ℚ)
    (va vb out : String) (hn : ¬ |a1 - a2| < 1/10)
    (hE : w.extractOk = true) (hM : w.muxOk = true) (hR : w.reencodeOk = true)
    (hC : w.concatOk = false) :
    fixPhase w ap a1 a2 va vb out =
      ((([Event.runExtractAudio (if a1 > a2 then va else vb)
            (if a1 > a2 then a1 - a2 else a2 - a1) true,
          Event.runBlankMux "1280x720" (if a1 > a2 then a1 - a2 else a2 - a1)
            "blank_with_audio.mp4" true] ++
         (if w.tempAudioExists then [Event.remove "temp_offset_audio.aac"] else [])) ++
        [Event.runReencode (if a1 > a2 then vb else va) "desynced_fixed.mp4" true]) ++
       [Event.write "concat_list.txt"
          ("file \x27" ++ ap "blank_with_audio.mp4" ++ "\x27\n" ++
           "file \x27" ++ ap "desynced_fixed.mp4" ++ "\x27\n"),
        Event.runConcat "concat_list.txt" out false],
       some 1) := by
  unfold fixPhase
  rw [if_neg hn, create_offset_video_ok _ _ _ _ _ hE hM]
  rw [reencode_video_ok _ _ _ hR]
  rw [concat_videos_fail _ _ _ _ _ hC]

/-- Shape of `fixPhase` when a fix is needed and all external invocations
succeed. -/
lemma fixPhase_fix_ok (w : World) (ap : String → String) (a1 a2 : ℚ)
    (va vb out : String) (hn : ¬ |a1 - a2| < 1/10)
    (hE : w.extractOk = true) (hM : w.muxOk = true) (hR : w.reencodeOk = true)
    (hC : w.concatOk = true) :
    fixPhase w ap a1 a2 va vb out =
      ((((([Event.runExtractAudio (if a1 > a2 then va else vb)
              (if a1 > a2 then a1 - a2 else a2 - a1) true,
            Event.runBlankMux "1280x720" (if a1 > a2 then a1 - a2 else a2 - a1)
              "blank_with_audio.mp4" true] ++
           (if w.tempAudioExists then [Event.remove "temp_offset_audio.aac"] else [])) ++
          [Event.runReencode (if a1 > a2 then vb else va) "desynced_fixed.mp4" true]) ++
         ([Event.write "concat_list.txt"
             ("file \x27" ++ ap "blank_with_audio.mp4" ++ "\x27\n" ++
              "file \x27" ++ ap "desynced_fixed.mp4" ++ "\x27\n"),
           Event.runConcat "concat_list.txt" out true] ++
          (if w.concatListExists then [Event.remove "concat_list.txt"] else []))) ++
        (if w.blankExists then [Event.remove "blank_with_audio.mp4"] else [])) ++
       (if w.desyncedFixedExists then [Event.remove "desynced_fixed.mp4"] else []),
       none) := by
  unfold fixPhase
  rw [if_neg hn, create_offset_video_ok _ _ _ _ _ hE hM]
  rw [reencode_video_ok _ _ _ hR]
  rw [concat_videos_ok _ _ _ _ _ hC]

/-- Membership in a conditional singleton-or-empty list. -/
lemma mem_ite_nil {α : Type} (a : α) (c : Prop) [Decidable c] (l : List α) :
    (a ∈ if c then l else []) ↔ c ∧ a ∈ l := by
  split <;> simp_all

/-- `auto_fix_offset` propagates a `sys.exit` raised during the fix phase. -/
lemma auto_fix_offset_of_fixPhase_fail {w : World} {ap : String → String} {a1 a2 : ℚ}
    {va vb out : String} (p q : String) (argv : List String) {es : List Event} {c : ℕ}
    (h : fixPhase w ap a1 a2 va vb out = (es, some c)) :
    auto_fix_offset w ap a1 a2 va vb out p q argv = (es, some c) := by
  unfold auto_fix_offset
  rw [h]

/-- When the fix phase returns normally, `auto_fix_offset` appends the argv
log write and the output check, and exits 1 exactly when the output is
missing or smaller than 10000 bytes. -/
lemma auto_fix_offset_of_fixPhase_ok {w : World} {ap : String → String} {a1 a2 : ℚ}
    {va vb out : String} (p q : String) (argv : List String) {es : List Event}
    (h : fixPhase w ap a1 a2 va vb out = (es, none)) :
    auto_fix_offset w ap a1 a2 va vb out p q argv =
      (es ++ [Event.write "/tmp/video_params.log" (String.intercalate " " argv),
              Event.check out],
       if w.outputExists = false ∨ w.outputSize < 10000 then some 1 else none) := by
  unfold auto_fix_offset
  rw [h]
  by_cases hc : w.outputExists = false ∨ w.outputSize < 10000 <;> simp [hc]

/-- `sync_video_main` runs `auto_fix_offset` at the call-site arguments and
exits with the propagated code, 0 when none was raised. -/
lemma sync_video_main_eq (w : World) (ap : String → String) (a1 a2 : ℚ)
    (p q out : String) :
    sync_video_main w ap a1 a2 p q out =
      ((auto_fix_offset w ap a1 a2 p q out p q ["sync_video.py", p, q, out]).1,
       ((auto_fix_offset w ap a1 a2 p q out p q ["sync_video.py", p, q, out]).2).getD 0) := by
  unfold sync_video_main
  rcases h : auto_fix_offset w ap a1 a2 p q out p q ["sync_video.py", p, q, out] with ⟨es, c⟩
  cases c <;> rfl

/-- The exit code of `auto_fix_offset` over all environments: the run
reaches the verification check when no fix is needed or all four external
invocations succeed, and then fails exactly when the output is missing or
smaller than 10000 bytes; otherwise some stage already exited 1. -/
lemma auto_fix_offset_exit (w : World) (ap : String → String) (a1 a2 : ℚ)
    (va vb out p q : String) (argv : List String) :
    (auto_fix_offset w ap a1 a2 va vb out p q argv).2 =
      if |a1 - a2| < 1/10 ∨
          (w.extractOk = true ∧ w.muxOk = true ∧ w.reencodeOk = true ∧ w.concatOk = true)
      then (if w.outputExists = false ∨ w.outputSize < 10000 then some 1 else none)
      else some 1 := by
  by_cases hth : |a1 - a2| < 1/10
  · have hyes : |a1 - a2| < 1/10 ∨
        (w.extractOk = true ∧ w.muxOk = true ∧ w.reencodeOk = true ∧ w.concatOk = true) :=
      Or.inl hth
    rw [auto_fix_offset_of_fixPhase_ok p q argv (fixPhase_nofix w ap a1 a2 va vb out hth),
        if_pos hyes]
  · cases hE : w.extractOk with
    | false =>
      rw [auto_fix_offset_of_fixPhase_fail p q argv
            (fixPhase_extract_fail w ap a1 a2 va vb out hth hE),
          if_neg (show ¬ (|a1 - a2| < 1/10 ∨
              false = true ∧ w.muxOk = true ∧ w.reencodeOk = true ∧ w.concatOk = true) from
            fun h => h.elim hth (fun hh => Bool.false_ne_true hh.1))]
    | true =>
      cases hM : w.muxOk with
      | false =>
        rw [auto_fix_offset_of_fixPhase_fail p q argv
              (fixPhase_mux_fail w ap a1 a2 va vb out hth hE hM),
            if_neg (show ¬ (|a1 - a2| < 1/10 ∨
                true = true ∧ false = true ∧ w.reencodeOk = true ∧ w.concatOk = true) from
              fun h => h.elim hth (fun hh => Bool.false_ne_true hh.2.1))]
      | true =>
        cases hR : w.reencodeOk with
        | false =>
          rw [auto_fix_offset_of_fixPhase_fail p q argv
                (fixPhase_reencode_fail w ap a1 a2 va vb out hth hE hM hR),
              if_neg (show ¬ (|a1 - a2| < 1/10 ∨
                  true = true ∧ true = true ∧ false = true ∧ w.concatOk = true) from
                fun h => h.elim hth (fun hh => Bool.false_ne_true hh.2.2.1))]
        | true =>
          cases hC : w.concatOk with
          | false =>
            rw [auto_fix_offset_of_fixPhase_fail p q argv
                  (fixPhase_concat_fail w ap a1 a2 va vb out hth hE hM hR hC),
                if_neg (show ¬ (|a1 - a2| < 1/10 ∨
                    true = true ∧ true = true ∧ true = true ∧ false = true) from
                  fun h => h.elim hth (fun hh => Bool.false_ne_true hh.2.2.2))]
          | true =>
            rw [auto_fix_offset_of_fixPhase_ok p q argv
                  (fixPhase_fix_ok w ap a1 a2 va vb out hth hE hM hR hC),
                if_pos (show (|a1 - a2| < 1/10 ∨
                    true = true ∧ true = true ∧ true = true ∧ true = true) from
                  Or.inr ⟨rfl, rfl, rfl, rfl⟩)]

/-- Over all environments, the only paths the full variant ever opens for a
Python-level write are the concat manifest and the argv log. -/
lemma auto_fix_offset_write_path (w : World) (ap : String → String) (a1 a2 : ℚ)
    (va vb out p q : String) (argv : List String) (pth ct : String)
    (hmem : Event.write pth ct ∈ (auto_fix_offset w ap a1 a2 va vb out p q argv).1) :
    pth = "concat_list.txt" ∨ pth = "/tmp/video_params.log" := by
  by_cases hth : |a1 - a2| < 1/10
  · rw [auto_fix_offset_of_fixPhase_ok p q argv (fixPhase_nofix w ap a1 a2 va vb out hth)]
      at hmem
    simp at hmem
    tauto
  · cases hE : w.extractOk with
    | false =>
      rw [auto_fix_offset_of_fixPhase_fail p q argv
            (fixPhase_extract_fail w ap a1 a2 va vb out hth hE)] at hmem
      simp at hmem
    | true =>
      cases hM : w.muxOk with
      | false =>
        rw [auto_fix_offset_of_fixPhase_fail p q argv
              (fixPhase_mux_fail w ap a1 a2 va vb out hth hE hM)] at hmem
        simp at hmem
      | true =>
        cases hR : w.reencodeOk with
        | false =>
          rw [auto_fix_offset_of_fixPhase_fail p q argv
                (fixPhase_reencode_fail w ap a1 a2 va vb out hth hE hM hR)] at hmem
          simp [mem_ite_nil] at hmem
        | true =>
          cases hC : w.concatOk with
          | false =>
            rw [auto_fix_offset_of_fixPhase_fail p q argv
                  (fixPhase_concat_fail w ap a1 a2 va vb out hth hE hM hR hC)] at hmem
            simp [mem_ite_nil] at hmem
            tauto
          | true =>
            rw [auto_fix_offset_of_fixPhase_ok p q argv
                  (fixPhase_fix_ok w ap a1 a2 va vb out hth hE hM hR hC)] at hmem
            simp [mem_ite_nil] at hmem
            tauto

/-- C3 counterexample: a successful full-variant run (exit 0) whose entire
trace is the argv log write and the output check — no write anywhere
contains a sync_status key, so no status record was emitted. -/
theorem status_record_full_variant_missing :
    (sync_video_main ⟨true, true, true, true, true, true, true, true, true, 20000⟩ id
        10 10 "p.mp4" "q.mp4" "out.mp4").2 = 0 ∧
    (sync_video_main ⟨true, true, true, true, true, true, true, true, true, 20000⟩ id
        10 10 "p.mp4" "q.mp4" "out.mp4").1 =
      [Event.write "/tmp/video_params.log" "sync_video.py p.mp4 q.mp4 out.mp4",
       Event.check "out.mp4"] ∧
    strContains "sync_video.py p.mp4 q.mp4 out.mp4" "sync_status=" = false := by
  have hth : |(10:ℚ) - 10| < 1/10 := by norm_num
  have hfix := auto_fix_offset_of_fixPhase_ok "p.mp4" "q.mp4"
      ["sync_video.py", "p.mp4", "q.mp4", "out.mp4"]
      (fixPhase_nofix ⟨true, true, true, true, true, true, true, true, true, 20000⟩ id 10 10
        "p.mp4" "q.mp4" "out.mp4" hth)
  refine ⟨?_, ?_, by decide⟩
  · rw [sync_video_main_eq, hfix]
    norm_num
  · rw [sync_video_main_eq, hfix]
    dsimp only
    decide

/-- C3 amended: on a successful run the minimal variant writes the
three-line key=value status record to its output file; the full variant
never writes one — the only paths it ever opens for writing are the concat
manifest and the argv log. -/
theorem status_record_minimal_variant_only (a1 a2 : ℚ) (outputfile : String) :
    (assign_flavor_main a1 a2 outputfile =
      ([Event.write outputfile
         ("sync_status=" ++ (determine_sync_status a1 a2).1 ++ "\n" ++
          "sync_video=" ++ (determine_sync_status a1 a2).2.1 ++ "\n" ++
          "offset.seconds=" ++ formatTwoDec (determine_sync_status a1 a2).2.2 ++ "\n")], 0)) ∧
    ∀ w ap p q out pth ct,
      Event.write pth ct ∈ (sync_video_main w ap a1 a2 p q out).1 →
      pth = "concat_list.txt" ∨ pth = "/tmp/video_params.log" := by
  constructor
  · rfl
  · intro w ap p q out pth ct hmem
    rw [sync_video_main_eq] at hmem
    dsimp only at hmem
    exact auto_fix_offset_write_path w ap a1 a2 p q out p q _ pth ct hmem

/-- Witness for C3 amended: the argv log write of a concrete successful
full-variant run is indeed one of the two permitted paths. -/
theorem status_record_minimal_variant_only_witness :
    assign_flavor_main 10 10 "out.properties" =
      ([Event.write "out.properties"
         ("sync_status=" ++ (determine_sync_status 10 10).1 ++ "\n" ++
          "sync_video=" ++ (determine_sync_status 10 10).2.1 ++ "\n" ++
          "offset.seconds=" ++ formatTwoDec (determine_sync_status 10 10).2.2 ++ "\n")], 0) ∧
    ("/tmp/video_params.log" = "concat_list.txt" ∨
     "/tmp/video_params.log" = "/tmp/video_params.log") := by
  have hth : |(10:ℚ) - 10| < 1/10 := by norm_num
  have hmem : Event.write "/tmp/video_params.log"
      (String.intercalate " " ["sync_video.py", "p.mp4", "q.mp4", "out.mp4"]) ∈
      (sync_video_main ⟨true, true, true, true, true, true, true, true, true, 20000⟩ id
        10 10 "p.mp4" "q.mp4" "out.mp4").1 := by
    rw [sync_video_main_eq,
        auto_fix_offset_of_fixPhase_ok "p.mp4" "q.mp4" _
          (fixPhase_nofix ⟨true, true, true, true, true, true, true, true, true, 20000⟩ id
            10 10 "p.mp4" "q.mp4" "out.mp4" hth)]
    simp
  exact ⟨(status_record_minimal_variant_only 10 10 "out.properties").1,
    (status_record_minimal_variant_only 10 10 "out.properties").2
      ⟨true, true, true, true, true, true, true, true, true, 20000⟩ id
      "p.mp4" "q.mp4" "out.mp4" "/tmp/video_params.log" _ hmem⟩

/-- C4 counterexample: an output of exactly 10000 bytes does not exceed
10000 bytes, yet the run exits 0 — the code's check is strictly
`size < 10000`. -/
theorem output_verification_boundary :
    (sync_video_main ⟨true, true, true, true, true, true, true, true, true, 10000⟩ id
        10 10 "p.mp4" "q.mp4" "out.mp4").2 = 0 ∧
    ¬ (10000:ℕ) > 10000 := by
  constructor
  · have hth : |(10:ℚ) - 10| < 1/10 := by norm_num
    rw [sync_video_main_eq, auto_fix_offset_exit]
    norm_num
  · omega

/-- C4 amended: in the full variant the run exits 0 exactly when it reaches
the verification check (no fix needed, or every external invocation
succeeded) and the declared output exists with size at least 10000 bytes;
a missing output or one strictly below 10000 bytes (in particular a 0-byte
file) exits 1, while exactly 10000 bytes passes. -/
theorem output_verification_exit (w : World) (ap : String → String) (a1 a2 : ℚ)
    (p q out : String) :
    (sync_video_main w ap a1 a2 p q out).2 = 0 ↔
      ((|a1 - a2| < 1/10 ∨
        (w.extractOk = true ∧ w.muxOk = true ∧ w.reencodeOk = true ∧ w.concatOk = true)) ∧
       w.outputExists = true ∧ 10000 ≤ w.outputSize) := by
  rw [sync_video_main_eq, auto_fix_offset_exit]
  by_cases hA : |a1 - a2| < 1/10 ∨
      (w.extractOk = true ∧ w.muxOk = true ∧ w.reencodeOk = true ∧ w.concatOk = true)
  · rw [if_pos hA]
    by_cases hB : w.outputExists = false ∨ w.outputSize < 10000
    · rw [if_pos hB]
      refine iff_of_false (by simp) ?_
      rintro ⟨-, hex, hle⟩
      rcases hB with h | h
      · rw [hex] at h
        exact absurd h (by decide)
      · exact absurd hle (not_le.mpr h)
    · rw [if_neg hB]
      refine iff_of_true rfl ⟨hA, ?_, ?_⟩
      · cases hob : w.outputExists with
        | true => rfl
        | false => exact absurd (Or.inl hob) hB
      · by_contra hlt
        exact hB (Or.inr (not_le.mp hlt))
  · rw [if_neg hA]
    exact iff_of_false (by simp) (fun hc => hA hc.1)

/-- C5 counterexample: when the muxing invocation fails, leader synthesis
exits 1 without removing temp_offset_audio.aac. -/
theorem temp_audio_not_removed_on_mux_failure :
    (create_offset_video ⟨true, false, true, true, true, true, true, true, true, 20000⟩
        "ref.mp4" 2 "1280x720" "blank_with_audio.mp4").2 = some 1 ∧
    Event.remove "temp_offset_audio.aac" ∉
      (create_offset_video ⟨true, false, true, true, true, true, true, true, true, 20000⟩
        "ref.mp4" 2 "1280x720" "blank_with_audio.mp4").1 := by
  rw [create_offset_video_mux_fail _ _ _ _ _ rfl rfl]
  exact ⟨rfl, by simp⟩

/-- C5 amended: leader synthesis removes its extracted audio temp file only
on the success path (after both invocations succeed, guarded by an
existence check); when the muxing step fails the process exits 1 with the
temp file left behind. -/
theorem temp_audio_cleanup_on_success_only (w : World) (r : String) (d : ℚ) (res o : String) :
    (w.extractOk = true → w.muxOk = true → w.tempAudioExists = true →
      (create_offset_video w r d res o).2 = none ∧
      Event.remove "temp_offset_audio.aac" ∈ (create_offset_video w r d res o).1) ∧
    (w.muxOk = false →
      (create_offset_video w r d res o).2 = some 1 ∧
      Event.remove "temp_offset_audio.aac" ∉ (create_offset_video w r d res o).1) := by
  constructor
  · intro hE hM hT
    rw [create_offset_video_ok _ _ _ _ _ hE hM, if_pos hT]
    exact ⟨rfl, by simp⟩
  · intro hM
    cases hE : w.extractOk with
    | false =>
      rw [create_offset_video_extract_fail _ _ _ _ _ hE]
      exact ⟨rfl, by simp⟩
    | true =>
      rw [create_offset_video_mux_fail _ _ _ _ _ hE hM]
      exact ⟨rfl, by simp⟩

/-- Witness for C5 amended at concrete environments. -/
theorem temp_audio_cleanup_on_success_only_witness :
    Event.remove "temp_offset_audio.aac" ∈
      (create_offset_video ⟨true, true, true, true, true, true, true, true, true, 20000⟩
        "r.mp4" 2 "1280x720" "b.mp4").1 ∧
    Event.remove "temp_offset_audio.aac" ∉
      (create_offset_video ⟨true, false, true, true, true, true, true, true, true, 20000⟩
        "r.mp4" 2 "1280x720" "b.mp4").1 :=
  ⟨((temp_audio_cleanup_on_success_only _ "r.mp4" 2 "1280x720" "b.mp4").1 rfl rfl rfl).2,
   ((temp_audio_cleanup_on_success_only _ "r.mp4" 2 "1280x720" "b.mp4").2 rfl).2⟩

/-- C6 counterexample: when the concat invocation fails, concat_videos
exits 1 without removing concat_list.txt. -/
theorem concat_manifest_not_removed_on_failure :
    (concat_videos ⟨true, true, true, false, true, true, true, true, true, 20000⟩ id
        "a.mp4" "b.mp4" "out.mp4").2 = some 1 ∧
    Event.remove "concat_list.txt" ∉
      (concat_videos ⟨true, true, true, false, true, true, true, true, true, 20000⟩ id
        "a.mp4" "b.mp4" "out.mp4").1 := by
  rw [concat_videos_fail _ _ _ _ _ rfl]
  exact ⟨rfl, by simp⟩

/-- C6 amended: the concat manifest is deleted only when the external
concat invocation succeeds (guarded by an existence check); on failure the
process exits 1 with the manifest left behind. -/
theorem concat_manifest_removed_on_success_only (w : World) (ap : String → String)
    (v1 v2 o : String) :
    (w.concatOk = true → w.concatListExists = true →
      (concat_videos w ap v1 v2 o).2 = none ∧
      Event.remove "concat_list.txt" ∈ (concat_videos w ap v1 v2 o).1) ∧
    (w.concatOk = false →
      (concat_videos w ap v1 v2 o).2 = some 1 ∧
      Event.remove "concat_list.txt" ∉ (concat_videos w ap v1 v2 o).1) := by
  constructor
  · intro hC hL
    rw [concat_videos_ok _ _ _ _ _ hC, if_pos hL]
    exact ⟨rfl, by simp⟩
  · intro hC
    rw [concat_videos_fail _ _ _ _ _ hC]
    exact ⟨rfl, by simp⟩

/-- Witness for C6 amended at concrete environments. -/
theorem concat_manifest_removed_on_success_only_witness :
    Event.remove "concat_list.txt" ∈
      (concat_videos ⟨true, true, true, true, true, true, true, true, true, 20000⟩ id
        "a.mp4" "b.mp4" "o.mp4").1 ∧
    Event.remove "concat_list.txt" ∉
      (concat_videos ⟨true, true, true, false, true, true, true, true, true, 20000⟩ id
        "a.mp4" "b.mp4" "o.mp4").1 :=
  ⟨((concat_manifest_removed_on_success_only _ id "a.mp4" "b.mp4" "o.mp4").1 rfl rfl).2,
   ((concat_manifest_removed_on_success_only _ id "a.mp4" "b.mp4" "o.mp4").2 rfl).2⟩

/-- C7 counterexample: presenter 120.0 s vs presentation 120.05 s — the raw
offset is 0.05, but the full variant resets its offset to 0 on the no-fix
path, and its successful run writes no offset.seconds line anywhere (its
only write is the argv log). -/
theorem raw_offset_full_variant_zero :
    (syncDecision id 120 (2401/20) "p.mp4" "q.mp4" "p.mp4" "q.mp4").2.2 = 0 ∧
    |(120:ℚ) - 2401/20| = 1/20 ∧ (1:ℚ)/20 ≠ 0 ∧
    (sync_video_main ⟨true, true, true, true, true, true, true, true, true, 20000⟩ id
        120 (2401/20) "p.mp4" "q.mp4" "out.mp4").1 =
      [Event.write "/tmp/video_params.log" "sync_video.py p.mp4 q.mp4 out.mp4",
       Event.check "out.mp4"] ∧
    strContains "sync_video.py p.mp4 q.mp4 out.mp4" "offset.seconds" = false := by
  have habs : |(120:ℚ) - 2401/20| = 1/20 := by
    have he : (120:ℚ) - 2401/20 = -(1/20) := by norm_num
    rw [he, abs_neg, abs_of_nonneg (by norm_num : (0:ℚ) ≤ 1/20)]
  have hth : |(120:ℚ) - 2401/20| < 1/10 := by rw [habs]; norm_num
  have hfix := auto_fix_offset_of_fixPhase_ok "p.mp4" "q.mp4"
      ["sync_video.py", "p.mp4", "q.mp4", "out.mp4"]
      (fixPhase_nofix ⟨true, true, true, true, true, true, true, true, true, 20000⟩ id
        120 (2401/20) "p.mp4" "q.mp4" "out.mp4" hth)
  refine ⟨?_, habs, by norm_num, ?_, by decide⟩
  · rw [syncDecision_nofix id 120 (2401/20) "p.mp4" "q.mp4" "p.mp4" "q.mp4" hth]
  · rw [sync_video_main_eq, hfix]
    dsimp only
    decide

/-- C7 amended: the minimal variant writes the raw offset |d_a - d_b| to
two decimal places even below the threshold (0.05 formats as "0.05"); the
full variant instead resets its internal offset to 0 whenever the
difference is below 0.1 and writes no status record at all. -/
theorem raw_offset_minimal_variant_only (a1 a2 : ℚ) (outputfile : String) :
    (assign_flavor_main a1 a2 outputfile).1 =
      [write_properties (determine_sync_status a1 a2).1 (determine_sync_status a1 a2).2.1
         |a1 - a2| outputfile] ∧
    formatTwoDec |(120:ℚ) - 2401/20| = "0.05" ∧
    (|a1 - a2| < 1/10 → ∀ ap va vb p q, (syncDecision ap a1 a2 va vb p q).2.2 = 0) := by
  refine ⟨rfl, ?_, fun h ap va vb p q => ?_⟩
  · have habs : |(120:ℚ) - 2401/20| = 1/20 := by
      have he : (120:ℚ) - 2401/20 = -(1/20) := by norm_num
      rw [he, abs_neg, abs_of_nonneg (by norm_num : (0:ℚ) ≤ 1/20)]
    rw [habs]
    have h1 : (1/20 : ℚ) * 100 = 5 := by norm_num
    have h2 : roundHalfEven 5 = 5 := by
      unfold roundHalfEven
      have hf : ⌊(5:ℚ)⌋ = 5 := by norm_num
      rw [hf]
      norm_num
    unfold formatTwoDec
    rw [h1, h2]
    decide
  · rw [syncDecision_nofix ap a1 a2 va vb p q h]

/-- Witness for C7 amended at the spec example durations. -/
theorem raw_offset_minimal_variant_only_witness :
    (syncDecision id 120 (2401/20) "pw.mp4" "qw.mp4" "pw.mp4" "qw.mp4").2.2 = 0 ∧
    formatTwoDec |(120:ℚ) - 2401/20| = "0.05" := by
  have h := raw_offset_minimal_variant_only 120 (2401/20) "w.properties"
  refine ⟨h.2.2 ?_ id "pw.mp4" "qw.mp4" "pw.mp4" "qw.mp4", h.2.1⟩
  have he : (120:ℚ) - 2401/20 = -(1/20) := by norm_num
  rw [he, abs_neg, abs_of_nonneg (by norm_num : (0:ℚ) ≤ 1/20)]
  norm_num

/-- C10: on every full-variant run that reaches line 184 — both the
no-fix-needed path and the fix-needed path with all stages succeeding — the
trace ends with the overwrite of /tmp/video_params.log by the space-joined
argv immediately followed by the output verification check, whatever the
verification outcome. -/
theorem video_params_log_always_written (w : World) (ap : String → String) (a1 a2 : ℚ)
    (p q out : String)
    (h : |a1 - a2| < 1/10 ∨
         (w.extractOk = true ∧ w.muxOk = true ∧ w.reencodeOk = true ∧ w.concatOk = true)) :
    [Event.write "/tmp/video_params.log"
       (String.intercalate " " ["sync_video.py", p, q, out]),
     Event.check out] <:+ (sync_video_main w ap a1 a2 p q out).1 := by
  by_cases hth : |a1 - a2| < 1/10
  · rw [sync_video_main_eq,
        auto_fix_offset_of_fixPhase_ok p q _ (fixPhase_nofix w ap a1 a2 p q out hth)]
    exact List.suffix_append _ _
  · rcases h with h | ⟨hE, hM, hR, hC⟩
    · exact absurd h hth
    · rw [sync_video_main_eq,
          auto_fix_offset_of_fixPhase_ok p q _
            (fixPhase_fix_ok w ap a1 a2 p q out hth hE hM hR hC)]
      exact List.suffix_append _ _

/-- Witness for C10 on a concrete no-fix run. -/
theorem video_params_log_always_written_witness :
    [Event.write "/tmp/video_params.log"
       (String.intercalate " " ["sync_video.py", "p.mp4", "q.mp4", "out.mp4"]),
     Event.check "out.mp4"] <:+
      (sync_video_main ⟨true, true, true, true, true, true, true, false, true, 20000⟩ id
        10 10 "p.mp4" "q.mp4" "out.mp4").1 :=
  video_params_log_always_written _ id 10 10 "p.mp4" "q.mp4" "out.mp4"
    (Or.inl (by norm_num))
